import Mathlib

/-!
Shallow embedding of the image cropping service (src/main.py): the
POST /crop-image/ handler `crop_image`, which validates the declared
content type, decodes the uploaded image, resolves a split row from the
optional `split_point` / `split_percentage` form fields, crops the image
into a header and a body slice, encodes both in the input format and
returns them as a two-entry zip archive.  PIL's decoding and encoding are
abstracted as function parameters; Python floats are modelled as exact
rationals; byte strings are lists of naturals.
-/

/-- A Python exception raised inside the handler's try block: either a
FastAPI `HTTPException` carrying a status code and a detail message, or a
generic exception (such as a PIL decode failure) carrying its message. -/
inductive PyExc where
  | http (status_code : Nat) (detail : String)
  | generic (msg : String)
deriving DecidableEq, Repr

/-- The string form of an exception, as Python's `str(e)`: a Starlette
`HTTPException` prints as "status_code: detail", a generic exception
prints its message. -/
def strOfExc : PyExc → String
  | .http status_code detail => toString status_code ++ ": " ++ detail
  | .generic msg => msg

/-- An HTTP error response produced by an `HTTPException` escaping the
handler; FastAPI renders it as a JSON body with this status and detail. -/
structure HTTPError where
  status_code : Nat
  detail : String
deriving DecidableEq, Repr

/-- A decoded PIL image: pixel dimensions plus the pixel grid, kept
abstract as a function from coordinates to a pixel value. -/
structure PILImage where
  width : Nat
  height : Nat
  pixel : Int → Int → Nat

/-- PIL's `Image.crop` on a box (left, upper, right, lower): the result
has size (right - left, lower - upper) and reads the source pixels offset
by the upper-left corner; the source image is not mutated. -/
def PILImage.crop (img : PILImage) (left upper right lower : Int) : PILImage :=
  { width := (right - left).toNat
    height := (lower - upper).toNat
    pixel := fun x y => img.pixel (left + x) (upper + y) }

/-- The multipart upload as the handler sees it: declared content type,
optional original filename, and the raw payload bytes. -/
structure UploadFileM where
  content_type : String
  filename : Option String
  data : List Nat
deriving DecidableEq, Repr

/-- The successful response: the zip archive as its list of named entries
(deflate compression abstracted away), the response media type, and the
attachment filename from the Content-Disposition header. -/
structure ZipResponse where
  entries : List (String × List Nat)
  media_type : String
  zip_filename : String
deriving DecidableEq, Repr

/-- Python's `str.startswith`: the candidate's characters are an initial
segment of the string's characters. -/
def pyStartswith (s p : String) : Bool :=
  p.toList.isPrefixOf s.toList

/-- Python's `str.lower`, character by character. -/
def pyLower (s : String) : String :=
  String.mk (s.toList.map Char.toLower)

/-- Python's `int()` applied to a real-valued number, modelled exactly on
the rationals: truncation toward zero. -/
def pyInt (q : ℚ) : Int :=
  if q < 0 then -⌊-q⌋ else ⌊q⌋

/-- Lines 44-60 of src/main.py: resolve `division_y` from the optional
`split_point` and `split_percentage` form fields.  A present `split_point`
is checked against `[0, height)` and used as is; otherwise a present
`split_percentage` is checked against `[0.0, 1.0]` and the row is
`int(height * split_percentage)`; otherwise the row is `height // 2`.
Out-of-range values raise `HTTPException(400)`. -/
def resolveDivisionY (height : Nat) (split_point : Option Int)
    (split_percentage : Option ℚ) : Except PyExc Int :=
  match split_point with
  | some sp =>
      if sp < 0 ∨ (height : Int) ≤ sp then
        .error (.http 400 ("El punto de división debe estar entre 0 y " ++
          toString (height - 1) ++ " píxeles"))
      else .ok sp
  | none =>
      match split_percentage with
      | some pct =>
          if pct < 0 ∨ 1 < pct then
            .error (.http 400 "El porcentaje debe estar entre 0.0 y 1.0")
          else .ok (pyInt ((height : ℚ) * pct))
      | none => .ok ((height / 2 : Nat) : Int)

/-- Lines 63-67 of src/main.py: the degenerate-split guard; the resolved
row must satisfy `0 < division_y < height` or `HTTPException(400)` is
raised. -/
def checkDivision (height : Nat) (division_y : Int) : Except PyExc Unit :=
  if division_y ≤ 0 ∨ (height : Int) ≤ division_y then
    .error (.http 400 "El punto de división no permite crear dos imágenes válidas")
  else .ok ()

/-- The index of the last '.' in the character list, if any. -/
def lastDotIdx (cs : List Char) : Option Nat :=
  match cs.reverse.findIdx? (fun c => c == '.') with
  | none => none
  | some j => some (cs.length - 1 - j)

/-- The base name before the extension, as `os.path.splitext(name)[0]` for
a bare upload filename (no directory separators): everything before the
last dot, except that a name whose characters before that dot are all dots
(such as ".bashrc") keeps the whole name. -/
def splitextBase (name : String) : String :=
  match lastDotIdx name.toList with
  | none => name
  | some i =>
      if (name.toList.take i).all (fun c => c == '.') then name
      else String.mk (name.toList.take i)

/-- Lines 69-101 of src/main.py: crop the header (rows [0, division_y))
and the body (rows [division_y, height)), encode both in the format chosen
from the declared content type (PNG for image/png, JPEG otherwise), write
the two fixed-name zip entries, and derive the attachment filename from
the upload's original filename (base name + "_cropped.zip", or
"image_cropped.zip" when no filename was supplied). -/
def buildResponse (encode : String → PILImage → List Nat)
    (file : UploadFileM) (image : PILImage) (division_y : Int) : ZipResponse :=
  let width := image.width
  let height := image.height
  let image_header := image.crop 0 0 (width : Int) division_y
  let image_body := image.crop 0 division_y (width : Int) (height : Int)
  let format_name := if file.content_type = "image/png" then "PNG" else "JPEG"
  let header_bytes := encode format_name image_header
  let body_bytes := encode format_name image_body
  let original_name :=
    match file.filename with
    | some fn => if fn = "" then "image" else splitextBase fn
    | none => "image"
  { entries := [("image_header." ++ pyLower format_name, header_bytes),
                ("image_body." ++ pyLower format_name, body_bytes)]
    media_type := "application/zip"
    zip_filename := original_name ++ "_cropped.zip" }

/-- Lines 36-102 of src/main.py: the body of the try block — decode the
payload (a failure raises a generic exception with PIL's message), resolve
the division row, run the degenerate-split guard, then crop, encode, zip
and name the archive. -/
def tryBody (decodeImg : List Nat → Except String PILImage)
    (encode : String → PILImage → List Nat) (file : UploadFileM)
    (split_point : Option Int) (split_percentage : Option ℚ) :
    Except PyExc ZipResponse :=
  match decodeImg file.data with
  | .error msg => .error (.generic msg)
  | .ok image =>
      match resolveDivisionY image.height split_point split_percentage with
      | .error e => .error e
      | .ok division_y =>
          match checkDivision image.height division_y with
          | .error e => .error e
          | .ok _ => .ok (buildResponse encode file image division_y)

/-- Lines 104-105 of src/main.py: the broad `except Exception` around the
handler body catches every exception — `HTTPException` included, since it
subclasses `Exception` — and re-raises it as a 500 whose detail wraps
`str(e)`. -/
def handleExc : Except PyExc ZipResponse → Except HTTPError ZipResponse
  | .ok resp => .ok resp
  | .error e => .error ⟨500, "Error procesando la imagen: " ++ strOfExc e⟩

/-- Lines 28-105 of src/main.py: the POST /crop-image/ handler.  The
declared content type must start with "image/" and be one of the three
accepted values, both checked before the try block; the body then runs
inside the try with the broad except wrapping any raised exception into a
500 response.  PIL's `Image.open` and `Image.save` are abstracted as the
`decodeImg` and `encode` parameters. -/
def crop_image (decodeImg : List Nat → Except String PILImage)
    (encode : String → PILImage → List Nat) (file : UploadFileM)
    (split_point : Option Int) (split_percentage : Option ℚ) :
    Except HTTPError ZipResponse :=
  if ¬ (pyStartswith file.content_type "image/" = true) then
    .error { status_code := 400, detail := "El archivo debe ser una imagen" }
  else if file.content_type ∉ (["image/png", "image/jpeg", "image/jpg"] : List String) then
    .error { status_code := 400, detail := "Solo se permiten archivos PNG y JPG" }
  else
    handleExc (tryBody decodeImg encode file split_point split_percentage)

lemma resolveDivisionY_sp (height : Nat) (sp : Int) (pct : Option ℚ) :
    resolveDivisionY height (some sp) pct =
      if sp < 0 ∨ (height : Int) ≤ sp then
        .error (.http 400 ("El punto de división debe estar entre 0 y " ++
          toString (height - 1) ++ " píxeles"))
      else .ok sp := rfl

lemma resolveDivisionY_pct (height : Nat) (pct : ℚ) :
    resolveDivisionY height none (some pct) =
      if pct < 0 ∨ 1 < pct then
        .error (.http 400 "El porcentaje debe estar entre 0.0 y 1.0")
      else .ok (pyInt ((height : ℚ) * pct)) := rfl

lemma checkDivision_ok_elim (height : Nat) (y : Int)
    (hvalid : checkDivision height y = .ok ()) :
    0 < y ∧ y < (height : Int) := by
  by_contra hcon
  have hcond : y ≤ 0 ∨ (height : Int) ≤ y := by omega
  unfold checkDivision at hvalid
  rw [if_pos hcond] at hvalid
  cases hvalid

/-- C1: for every split row y accepted by the degenerate-split guard on an
image of width w and height h, the header crop has exactly y rows and the
body crop exactly h - y rows, the two heights sum to h, both are at least
1, and both crops keep the original width w. -/
theorem crop_slices_ok (img : PILImage) (y : Int)
    (hvalid : checkDivision img.height y = .ok ()) :
    (img.crop 0 0 (img.width : Int) y).height = y.toNat ∧
    (img.crop 0 y (img.width : Int) (img.height : Int)).height = img.height - y.toNat ∧
    (img.crop 0 0 (img.width : Int) y).height +
      (img.crop 0 y (img.width : Int) (img.height : Int)).height = img.height ∧
    1 ≤ (img.crop 0 0 (img.width : Int) y).height ∧
    1 ≤ (img.crop 0 y (img.width : Int) (img.height : Int)).height ∧
    (img.crop 0 0 (img.width : Int) y).width = img.width ∧
    (img.crop 0 y (img.width : Int) (img.height : Int)).width = img.width := by
  obtain ⟨h1, h2⟩ := checkDivision_ok_elim img.height y hvalid
  simp only [PILImage.crop]
  omega

/-- C2: the split row is resolved as follows — a provided split_point is
used and takes precedence over split_percentage; else a provided in-range
split_percentage yields row floor(height * split_percentage); else the row
defaults to height / 2 by integer (floor) division. -/
theorem split_row_res (height : Nat) (sp : Int) (pct : ℚ) :
    (resolveDivisionY height (some sp) (some pct) =
      resolveDivisionY height (some sp) none) ∧
    (0 ≤ sp → sp < (height : Int) →
      resolveDivisionY height (some sp) (some pct) = .ok sp) ∧
    (0 ≤ pct → pct ≤ 1 →
      resolveDivisionY height none (some pct) = .ok ⌊(height : ℚ) * pct⌋) ∧
    resolveDivisionY height none none = .ok ((height / 2 : Nat) : Int) := by
  refine ⟨rfl, ?_, ?_, rfl⟩
  · intro h0 hh
    rw [resolveDivisionY_sp, if_neg (by omega)]
  · intro h0 h1
    rw [resolveDivisionY_pct, if_neg (by push_neg; exact ⟨h0, h1⟩)]
    unfold pyInt
    rw [if_neg (not_lt.mpr (mul_nonneg (Nat.cast_nonneg _) h0))]

lemma startsWith_of_mem (c : String)
    (h : c ∈ (["image/png", "image/jpeg", "image/jpg"] : List String)) :
    pyStartswith c "image/" = true := by
  simp only [List.mem_cons, List.not_mem_nil, or_false] at h
  rcases h with rfl | rfl | rfl <;> decide

lemma crop_image_of_mem (d : List Nat → Except String PILImage)
    (e : String → PILImage → List Nat) (f : UploadFileM)
    (sp : Option Int) (pct : Option ℚ)
    (h : f.content_type ∈ (["image/png", "image/jpeg", "image/jpg"] : List String)) :
    crop_image d e f sp pct = handleExc (tryBody d e f sp pct) := by
  unfold crop_image
  rw [if_neg (not_not_intro (startsWith_of_mem _ h)), if_neg (not_not_intro h)]

lemma tryBody_decode_err (d : List Nat → Except String PILImage)
    (e : String → PILImage → List Nat) (f : UploadFileM)
    (sp : Option Int) (pct : Option ℚ) (msg : String)
    (hd : d f.data = .error msg) :
    tryBody d e f sp pct = .error (.generic msg) := by
  unfold tryBody
  rw [hd]

lemma tryBody_decode_ok (d : List Nat → Except String PILImage)
    (e : String → PILImage → List Nat) (f : UploadFileM)
    (sp : Option Int) (pct : Option ℚ) (img : PILImage)
    (hd : d f.data = .ok img) :
    tryBody d e f sp pct =
      match resolveDivisionY img.height sp pct with
      | .error er => .error er
      | .ok division_y =>
          match checkDivision img.height division_y with
          | .error er => .error er
          | .ok _ => .ok (buildResponse e f img division_y) := by
  unfold tryBody
  rw [hd]

lemma tryBody_ok_elim (d : List Nat → Except String PILImage)
    (e : String → PILImage → List Nat) (f : UploadFileM)
    (sp : Option Int) (pct : Option ℚ) (resp : ZipResponse)
    (h : tryBody d e f sp pct = .ok resp) :
    ∃ img division_y, d f.data = .ok img ∧
      resolveDivisionY img.height sp pct = .ok division_y ∧
      checkDivision img.height division_y = .ok () ∧
      resp = buildResponse e f img division_y := by
  cases hd : d f.data with
  | error msg =>
      rw [tryBody_decode_err d e f sp pct msg hd] at h
      cases h
  | ok img =>
      rw [tryBody_decode_ok d e f sp pct img hd] at h
      cases hr : resolveDivisionY img.height sp pct with
      | error er => rw [hr] at h; simp only at h; cases h
      | ok dy =>
          rw [hr] at h
          simp only at h
          cases hc : checkDivision img.height dy with
          | error er => rw [hc] at h; simp only at h; cases h
          | ok u =>
              cases u
              rw [hc] at h
              simp only [Except.ok.injEq] at h
              exact ⟨img, dy, rfl, hr, hc, h.symm⟩

lemma crop_image_ok_elim (d : List Nat → Except String PILImage)
    (e : String → PILImage → List Nat) (f : UploadFileM)
    (sp : Option Int) (pct : Option ℚ) (resp : ZipResponse)
    (h : crop_image d e f sp pct = .ok resp) :
    f.content_type ∈ (["image/png", "image/jpeg", "image/jpg"] : List String) ∧
    ∃ img division_y, d f.data = .ok img ∧
      resolveDivisionY img.height sp pct = .ok division_y ∧
      checkDivision img.height division_y = .ok () ∧
      resp = buildResponse e f img division_y := by
  unfold crop_image at h
  by_cases h1 : ¬ (pyStartswith f.content_type "image/" = true)
  · rw [if_pos h1] at h; cases h
  · rw [if_neg h1] at h
    by_cases h2 : f.content_type ∉ (["image/png", "image/jpeg", "image/jpg"] : List String)
    · rw [if_pos h2] at h; cases h
    · rw [if_neg h2] at h
      refine ⟨not_not.mp h2, ?_⟩
      cases htb : tryBody d e f sp pct with
      | error er =>
          rw [htb] at h
          simp only [handleExc] at h
          cases h
      | ok r =>
          rw [htb] at h
          simp only [handleExc, Except.ok.injEq] at h
          subst h
          exact tryBody_ok_elim d e f sp pct r htb

lemma crop_image_pct_oob (d : List Nat → Except String PILImage)
    (e : String → PILImage → List Nat) (f : UploadFileM) (pct : ℚ)
    (img : PILImage)
    (hmem : f.content_type ∈ (["image/png", "image/jpeg", "image/jpg"] : List String))
    (hd : d f.data = .ok img) (hpct : pct < 0 ∨ 1 < pct) :
    crop_image d e f none (some pct) =
      .error ⟨500, "Error procesando la imagen: 400: El porcentaje debe estar entre 0.0 y 1.0"⟩ := by
  rw [crop_image_of_mem _ _ _ _ _ hmem, tryBody_decode_ok _ _ _ _ _ img hd,
    resolveDivisionY_pct, if_pos hpct]
  rfl

lemma crop_image_pct_degenerate (d : List Nat → Except String PILImage)
    (e : String → PILImage → List Nat) (f : UploadFileM) (pct : ℚ)
    (img : PILImage)
    (hmem : f.content_type ∈ (["image/png", "image/jpeg", "image/jpg"] : List String))
    (hd : d f.data = .ok img) (hpct : ¬ (pct < 0 ∨ 1 < pct))
    (hdeg : pyInt ((img.height : ℚ) * pct) ≤ 0 ∨
      (img.height : Int) ≤ pyInt ((img.height : ℚ) * pct)) :
    crop_image d e f none (some pct) =
      .error ⟨500, "Error procesando la imagen: 400: El punto de división no permite crear dos imágenes válidas"⟩ := by
  rw [crop_image_of_mem _ _ _ _ _ hmem, tryBody_decode_ok _ _ _ _ _ img hd,
    resolveDivisionY_pct, if_neg hpct]
  simp only
  have hc : checkDivision img.height (pyInt ((img.height : ℚ) * pct)) =
      .error (.http 400 "El punto de división no permite crear dos imágenes válidas") := by
    unfold checkDivision
    rw [if_pos hdeg]
  rw [hc]
  rfl

/-- C3 (code bug evidence): an out-of-range split_point (50 on a 50-tall
image) and an out-of-range split_percentage (2) are rejected with the
out-of-range message stating the valid range, but delivered with HTTP
status 500, not the 400-equivalent client error the claim states: the
broad except re-wraps the HTTPException(400) raised inside the try. -/
theorem out_of_range_delivered_as_500 :
    (crop_image (fun _ => .ok ⟨10, 50, fun _ _ => 0⟩) (fun _ _ => [1])
        ⟨"image/png", some "a.png", [7]⟩ (some 50) none =
      .error ⟨500, "Error procesando la imagen: 400: El punto de división debe estar entre 0 y 49 píxeles"⟩) ∧
    (crop_image (fun _ => .ok ⟨10, 50, fun _ _ => 0⟩) (fun _ _ => [1])
        ⟨"image/png", some "a.png", [7]⟩ none (some 2) =
      .error ⟨500, "Error procesando la imagen: 400: El porcentaje debe estar entre 0.0 y 1.0"⟩) := by
  constructor
  · rfl
  · exact crop_image_pct_oob _ _ _ _ ⟨10, 50, fun _ _ => 0⟩ (by decide) rfl (by norm_num)

/-- C4 (code bug evidence): split_point = 0, split_percentage = 0 and
split_percentage = 1 all fail with the degenerate-split message (not the
out-of-range one), but the failure is delivered with HTTP status 500, not
the client error the claim states: the broad except re-wraps the
HTTPException(400) raised inside the try. -/
theorem degenerate_split_delivered_as_500 :
    (crop_image (fun _ => .ok ⟨10, 50, fun _ _ => 0⟩) (fun _ _ => [1])
        ⟨"image/png", some "a.png", [7]⟩ (some 0) none =
      .error ⟨500, "Error procesando la imagen: 400: El punto de división no permite crear dos imágenes válidas"⟩) ∧
    (crop_image (fun _ => .ok ⟨10, 50, fun _ _ => 0⟩) (fun _ _ => [1])
        ⟨"image/png", some "a.png", [7]⟩ none (some 0) =
      .error ⟨500, "Error procesando la imagen: 400: El punto de división no permite crear dos imágenes válidas"⟩) ∧
    (crop_image (fun _ => .ok ⟨10, 50, fun _ _ => 0⟩) (fun _ _ => [1])
        ⟨"image/png", some "a.png", [7]⟩ none (some 1) =
      .error ⟨500, "Error procesando la imagen: 400: El punto de división no permite crear dos imágenes válidas"⟩) := by
  refine ⟨rfl, ?_, ?_⟩
  · exact crop_image_pct_degenerate _ _ _ _ ⟨10, 50, fun _ _ => 0⟩ (by decide) rfl
      (by norm_num) (by left; norm_num [pyInt])
  · exact crop_image_pct_degenerate _ _ _ _ ⟨10, 50, fun _ _ => 0⟩ (by decide) rfl
      (by norm_num) (by right; norm_num [pyInt])

/-- C5: the declared content type is accepted exactly when it is one of
image/png, image/jpeg or image/jpg — then the handler proceeds into the
try body — and any other value (the empty string included) is rejected
with a 400 InvalidMediaType error whose message and status are independent
of the decoder and payload, hence before any attempt to decode. -/
theorem media_type_gate (d : List Nat → Except String PILImage)
    (e : String → PILImage → List Nat) (f : UploadFileM)
    (sp : Option Int) (pct : Option ℚ) :
    (f.content_type ∈ (["image/png", "image/jpeg", "image/jpg"] : List String) →
      crop_image d e f sp pct = handleExc (tryBody d e f sp pct)) ∧
    (f.content_type ∉ (["image/png", "image/jpeg", "image/jpg"] : List String) →
      crop_image d e f sp pct = .error ⟨400,
        if pyStartswith f.content_type "image/" = true then
          "Solo se permiten archivos PNG y JPG"
        else "El archivo debe ser una imagen"⟩) := by
  constructor
  · exact crop_image_of_mem d e f sp pct
  · intro hmem
    unfold crop_image
    by_cases hsw : pyStartswith f.content_type "image/" = true
    · rw [if_neg (not_not_intro hsw), if_pos hmem, if_pos hsw]
    · rw [if_pos hsw, if_neg hsw]

theorem media_type_gate_witness :
    (crop_image (fun _ => .ok ⟨4, 6, fun _ _ => 0⟩) (fun _ _ => [2])
        ⟨"image/jpg", some "b.jpg", [9]⟩ (some 3) none =
      handleExc (tryBody (fun _ => .ok ⟨4, 6, fun _ _ => 0⟩) (fun _ _ => [2])
        ⟨"image/jpg", some "b.jpg", [9]⟩ (some 3) none)) ∧
    (crop_image (fun _ => .ok ⟨4, 6, fun _ _ => 0⟩) (fun _ _ => [2])
        ⟨"text/plain", some "b.txt", [9]⟩ (some 3) none =
      .error ⟨400,
        if pyStartswith "text/plain" "image/" = true then
          "Solo se permiten archivos PNG y JPG"
        else "El archivo debe ser una imagen"⟩) :=
  ⟨(media_type_gate _ _ _ _ _).1 (by decide),
   (media_type_gate _ _ _ _ _).2 (by decide)⟩

/-- C6: every successful response's archive has exactly two entries, named
image_header.<ext> and image_body.<ext> with <ext> = png when the declared
type is image/png and jpeg otherwise (i.e. for image/jpeg and image/jpg),
and both slices are encoded with that same format name. -/
theorem zip_archive_two_entries (d : List Nat → Except String PILImage)
    (e : String → PILImage → List Nat) (f : UploadFileM)
    (sp : Option Int) (pct : Option ℚ) (resp : ZipResponse)
    (h : crop_image d e f sp pct = .ok resp) :
    ∃ header body : PILImage,
      resp.entries =
        [("image_header." ++ (if f.content_type = "image/png" then "png" else "jpeg"),
          e (if f.content_type = "image/png" then "PNG" else "JPEG") header),
         ("image_body." ++ (if f.content_type = "image/png" then "png" else "jpeg"),
          e (if f.content_type = "image/png" then "PNG" else "JPEG") body)] := by
  obtain ⟨-, img, dy, -, -, -, hresp⟩ := crop_image_ok_elim d e f sp pct resp h
  subst hresp
  refine ⟨img.crop 0 0 (img.width : Int) dy,
    img.crop 0 dy (img.width : Int) (img.height : Int), ?_⟩
  unfold buildResponse
  by_cases hct : f.content_type = "image/png"
  · rw [if_pos hct]
    simp only [if_pos hct]
    have hl : pyLower "PNG" = "png" := by decide
    rw [hl]
  · rw [if_neg hct]
    simp only [if_neg hct]
    have hl : pyLower "JPEG" = "jpeg" := by decide
    rw [hl]

theorem zip_archive_two_entries_witness :
    ∃ header body : PILImage,
      (buildResponse (fun _ _ => [2]) ⟨"image/png", some "p.png", [1]⟩
          ⟨4, 6, fun _ _ => 0⟩ 2).entries =
        [("image_header." ++ (if "image/png" = "image/png" then "png" else "jpeg"),
          (fun (_ : String) (_ : PILImage) => [2])
            (if "image/png" = "image/png" then "PNG" else "JPEG") header),
         ("image_body." ++ (if "image/png" = "image/png" then "png" else "jpeg"),
          (fun (_ : String) (_ : PILImage) => [2])
            (if "image/png" = "image/png" then "PNG" else "JPEG") body)] :=
  zip_archive_two_entries (fun _ => .ok ⟨4, 6, fun _ _ => 0⟩) (fun _ _ => [2])
    ⟨"image/png", some "p.png", [1]⟩ (some 2) none _ rfl

/-- C7 counterexample: a request whose payload is not a decodable image
and whose split_point (999) is out of range receives the decode error
(500, PIL's message), not the OutOfRange validation error: the code
decodes the image before the numeric-range checks, which need the
height. -/
theorem range_check_after_decode_cex :
    crop_image (fun _ => .error "cannot identify image file") (fun _ _ => [1])
      ⟨"image/png", some "a.png", [7]⟩ (some 999) none =
      .error ⟨500, "Error procesando la imagen: cannot identify image file"⟩ := rfl

/-- C7 amended: numeric-range validation failures are detected after
decoding (the bounds depend on the decoded height) but before any
encoding work: with a decodable payload, an out-of-range split_point is
reported with the out-of-range message for every encoder, the encoder
being irrelevant to the result. -/
theorem range_check_before_encoding (d : List Nat → Except String PILImage)
    (e : String → PILImage → List Nat) (f : UploadFileM)
    (sp : Int) (pct : Option ℚ) (img : PILImage)
    (hmem : f.content_type ∈ (["image/png", "image/jpeg", "image/jpg"] : List String))
    (hd : d f.data = .ok img) (hrange : sp < 0 ∨ (img.height : Int) ≤ sp) :
    crop_image d e f (some sp) pct =
      .error ⟨500, "Error procesando la imagen: 400: El punto de división debe estar entre 0 y " ++
        toString (img.height - 1) ++ " píxeles"⟩ := by
  rw [crop_image_of_mem _ _ _ _ _ hmem, tryBody_decode_ok _ _ _ _ _ img hd,
    resolveDivisionY_sp, if_pos hrange]
  rfl

theorem range_check_before_encoding_witness :
    crop_image (fun _ => .ok ⟨10, 50, fun _ _ => 0⟩) (fun _ _ => [2])
      ⟨"image/jpeg", some "c.jpeg", [3]⟩ (some 50) none =
      .error ⟨500, "Error procesando la imagen: 400: El punto de división debe estar entre 0 y " ++
        toString (50 - 1 : Nat) ++ " píxeles"⟩ :=
  range_check_before_encoding _ _ _ 50 none ⟨10, 50, fun _ _ => 0⟩ (by decide) rfl
    (Or.inr (le_refl 50))

/-- C8: the endpoint is deterministic — two requests with the same file
bytes, filename, content type and split parameters, run against the same
decoder and encoder, produce identical results, byte-identical archive
entries included. -/
theorem crop_image_deterministic (d : List Nat → Except String PILImage)
    (e : String → PILImage → List Nat) (f1 f2 : UploadFileM)
    (sp1 sp2 : Option Int) (pct1 pct2 : Option ℚ)
    (hct : f1.content_type = f2.content_type) (hfn : f1.filename = f2.filename)
    (hdata : f1.data = f2.data) (hsp : sp1 = sp2) (hpct : pct1 = pct2) :
    crop_image d e f1 sp1 pct1 = crop_image d e f2 sp2 pct2 := by
  cases f1
  cases f2
  simp only at hct hfn hdata
  subst hct hfn hdata hsp hpct
  rfl

theorem crop_image_deterministic_witness :
    crop_image (fun _ => .ok ⟨4, 6, fun _ _ => 0⟩) (fun _ _ => [2])
      ⟨"image/png", some "p.png", [1]⟩ (some 2) none =
    crop_image (fun _ => .ok ⟨4, 6, fun _ _ => 0⟩) (fun _ _ => [2])
      ⟨"image/png", some "p.png", [1]⟩ (some 2) none :=
  crop_image_deterministic _ _ _ _ _ _ _ _ rfl rfl rfl rfl rfl

/-- C9: whenever split_point is provided, the response is independent of
split_percentage: the two runs agree for any two percentage values
(out-of-range ones included), so no OutOfRange error is ever raised for
the ignored split_percentage. -/
theorem split_point_shields_percentage (d : List Nat → Except String PILImage)
    (e : String → PILImage → List Nat) (f : UploadFileM)
    (sp : Int) (pct1 pct2 : Option ℚ) :
    crop_image d e f (some sp) pct1 = crop_image d e f (some sp) pct2 := rfl

/-- C10: when the decoded image has height 1, every request fails: no
resolved row satisfies 0 < row < 1, so whatever the split parameters (and
the content type), the handler returns an error. -/
theorem height_one_always_fails (d : List Nat → Except String PILImage)
    (e : String → PILImage → List Nat) (f : UploadFileM)
    (sp : Option Int) (pct : Option ℚ) (img : PILImage)
    (hd : d f.data = .ok img) (hh : img.height = 1) :
    ∃ err, crop_image d e f sp pct = .error err := by
  by_cases h1 : ¬ (pyStartswith f.content_type "image/" = true)
  · exact ⟨_, by unfold crop_image; rw [if_pos h1]⟩
  · by_cases h2 : f.content_type ∉ (["image/png", "image/jpeg", "image/jpg"] : List String)
    · exact ⟨_, by unfold crop_image; rw [if_neg h1, if_pos h2]⟩
    · rw [crop_image_of_mem d e f sp pct (not_not.mp h2),
        tryBody_decode_ok d e f sp pct img hd]
      cases hr : resolveDivisionY img.height sp pct with
      | error er => exact ⟨_, rfl⟩
      | ok dy =>
          have hc : checkDivision img.height dy =
              .error (.http 400 "El punto de división no permite crear dos imágenes válidas") := by
            unfold checkDivision
            rw [hh, if_pos (by omega)]
          simp only
          rw [hc]
          exact ⟨_, rfl⟩

theorem height_one_always_fails_witness :
    ∃ err, crop_image (fun _ => .ok ⟨3, 1, fun _ _ => 0⟩) (fun _ _ => [2])
      ⟨"image/png", some "p.png", [1]⟩ none none = .error err :=
  height_one_always_fails _ _ _ none none ⟨3, 1, fun _ _ => 0⟩ rfl rfl

theorem crop_slices_ok_witness :
    checkDivision (5 : Nat) (2 : Int) = .ok () ∧
    (((⟨4, 5, fun _ _ => 0⟩ : PILImage).crop 0 0 (4 : Int) (2 : Int)).height = 2 ∧
     ((⟨4, 5, fun _ _ => 0⟩ : PILImage).crop 0 (2 : Int) (4 : Int) (5 : Int)).height = 3 ∧
     ((⟨4, 5, fun _ _ => 0⟩ : PILImage).crop 0 0 (4 : Int) (2 : Int)).height +
       ((⟨4, 5, fun _ _ => 0⟩ : PILImage).crop 0 (2 : Int) (4 : Int) (5 : Int)).height = 5 ∧
     1 ≤ ((⟨4, 5, fun _ _ => 0⟩ : PILImage).crop 0 0 (4 : Int) (2 : Int)).height ∧
     1 ≤ ((⟨4, 5, fun _ _ => 0⟩ : PILImage).crop 0 (2 : Int) (4 : Int) (5 : Int)).height ∧
     ((⟨4, 5, fun _ _ => 0⟩ : PILImage).crop 0 0 (4 : Int) (2 : Int)).width = 4 ∧
     ((⟨4, 5, fun _ _ => 0⟩ : PILImage).crop 0 (2 : Int) (4 : Int) (5 : Int)).width = 4) :=
  ⟨rfl, crop_slices_ok ⟨4, 5, fun _ _ => 0⟩ 2 rfl⟩

theorem split_row_res_witness :
    (resolveDivisionY 10 (some 3) (some 2) = resolveDivisionY 10 (some 3) none) ∧
    (resolveDivisionY 10 (some 3) (some 2) = .ok 3) ∧
    (resolveDivisionY 10 none (some 1) = .ok ⌊(10 : ℚ) * 1⌋) ∧
    (resolveDivisionY 10 none none = .ok ((10 / 2 : Nat) : Int)) :=
  ⟨(split_row_res 10 3 2).1, (split_row_res 10 3 2).2.1 (by norm_num) (by norm_num),
   (split_row_res 10 3 1).2.2.1 (by norm_num) (by norm_num),
   (split_row_res 10 3 2).2.2.2⟩
